import Mathlib

/-!
Verification of the catalog filtering, progress tracking and exercise
evaluation logic of the vim-master learning platform (`src/script.js`,
class `NeovimMastery`).

Strings are modelled as Lean `String`; JavaScript `toLowerCase`, `trim`
and `includes` are embedded below as `jsToLower`, `jsTrim` and
`jsIncludes` over the character list of the string (ASCII case folding,
as in the data this code handles).  Sets (`Set` objects holding the
completed challenge ids) are modelled as `Finset ℕ`.  JavaScript numbers
are modelled as `ℚ` where fractions occur, with `Option` capturing the
non-finite results (`NaN`/`Infinity`) of dividing by zero, and
`Math.round` as Mathlib's `round` (both round half up).  Message string
literals are reproduced from the source up to punctuation (apostrophes
are spelled out).
-/

namespace VimMaster

/-- Model of `String.prototype.toLowerCase` (ASCII case folding, which is
all the catalog data exercises): lower-case every character. -/
def jsToLower (s : String) : String :=
  String.mk (s.data.map Char.toLower)

/-- Model of `String.prototype.trim`: strip the usual whitespace
characters from both ends. -/
def isJsWhitespace (c : Char) : Bool :=
  c = ' ' || c = '\t' || c = '\n' || c = '\r'

/-- JavaScript `trim`, on the underlying character list. -/
def jsTrim (s : String) : String :=
  String.mk (((s.data.dropWhile isJsWhitespace).reverse.dropWhile isJsWhitespace).reverse)

/-- Character-list equality of a leading segment: `needle` is an initial
segment of the second list. -/
def headMatches : List Char → List Char → Bool
  | [], _ => true
  | _ :: _, [] => false
  | a :: as, b :: bs => a == b && headMatches as bs

/-- `needle` occurs contiguously somewhere in the list. -/
def isSubSeg (needle : List Char) : List Char → Bool
  | [] => needle.isEmpty
  | c :: rest => headMatches needle (c :: rest) || isSubSeg needle rest

/-- Model of `String.prototype.includes`: the needle occurs contiguously
in the haystack (true for the empty needle, as in JavaScript). -/
def jsIncludes (s needle : String) : Bool :=
  isSubSeg needle.data s.data

/-! ## Data model: catalog entries and the filter state

`CatalogEntry` as consumed by `applyFilters` (src/script.js:220-234):
`title`, `description`, `tags`, `difficulty` (plus the `id` used by the
progress tracker).  `FilterState` holds the three inputs the filter pass
reads: the search term as normalised by its callers
(`handleSearch`, src/script.js:184-187, and `applyFilters` itself,
src/script.js:216-218, both apply `.toLowerCase().trim()` before the
pass), the active difficulty button value, and the active tag values. -/

structure Challenge where
  id : ℕ
  title : String
  description : String
  tags : List String
  difficulty : String
deriving DecidableEq

structure FilterState where
  searchTerm : String
  activeDifficulty : String
  activeTags : List String
deriving DecidableEq

/-- Search predicate of the filter callback (src/script.js:222-225):
`!searchTerm || title.toLowerCase().includes(searchTerm) ||
description.toLowerCase().includes(searchTerm) ||
tags.some(tag => tag.toLowerCase().includes(searchTerm))`. -/
def matchesSearch (c : Challenge) (searchTerm : String) : Bool :=
  searchTerm.isEmpty
    || jsIncludes (jsToLower c.title) searchTerm
    || jsIncludes (jsToLower c.description) searchTerm
    || c.tags.any fun tag => jsIncludes (jsToLower tag) searchTerm

/-- Difficulty predicate (src/script.js:228):
`activeDifficulty === 'all' || challenge.difficulty === activeDifficulty`. -/
def matchesDifficulty (c : Challenge) (activeDifficulty : String) : Bool :=
  (activeDifficulty == "all") || (c.difficulty == activeDifficulty)

/-- Tag predicate (src/script.js:231):
`activeTags.length === 0 || activeTags.some(tag => challenge.tags.includes(tag))`
(`Array.prototype.includes`, i.e. exact membership). -/
def matchesTags (c : Challenge) (activeTags : List String) : Bool :=
  activeTags.isEmpty || activeTags.any fun tag => c.tags.contains tag

/-- The filter pass `applyFilters` (src/script.js:220-234): keep the
challenges satisfying all three predicates, in catalog order
(`Array.prototype.filter`). -/
def applyFilters (challenges : List Challenge) (st : FilterState) : List Challenge :=
  challenges.filter fun c =>
    matchesSearch c st.searchTerm
      && matchesDifficulty c st.activeDifficulty
      && matchesTags c st.activeTags

/-! ## The filter contract as the spec words it

`computeVisible` per spec section 4.1, written from the spec text alone:
an entry is visible iff the search term is empty or a case-insensitive
substring of title, description or some tag; the difficulty facet is
"all" or equals the entry difficulty; and the tag facet is empty or
shares a tag with the entry. -/

/-- `term` is a case-insensitive substring of `s`. -/
def ciSubstring (term s : String) : Bool :=
  jsIncludes (jsToLower s) (jsToLower term)

/-- Spec 4.1 search clause. -/
def specSearchOk (st : FilterState) (c : Challenge) : Bool :=
  st.searchTerm.isEmpty
    || ciSubstring st.searchTerm c.title
    || ciSubstring st.searchTerm c.description
    || c.tags.any fun tag => ciSubstring st.searchTerm tag

/-- Spec 4.1 difficulty clause: the facet is "all" or equals the entry's
difficulty. -/
def specDifficultyOk (st : FilterState) (c : Challenge) : Bool :=
  (st.activeDifficulty == "all") || (st.activeDifficulty == c.difficulty)

/-- Spec 4.1 tag clause: the facet is empty or intersects the entry's
tags. -/
def specTagsOk (st : FilterState) (c : Challenge) : Bool :=
  st.activeTags.isEmpty || st.activeTags.any fun tag => c.tags.contains tag

/-- `computeVisible` exactly as spec section 4.1 describes it. -/
def computeVisibleSpec (catalog : List Challenge) (st : FilterState) : List Challenge :=
  catalog.filter fun c => specSearchOk st c && specDifficultyOk st c && specTagsOk st c

/-! ## The filter pass on raw JSON entries

`applyFilters` runs on the entries exactly as parsed from JSON, with no
schema validation, so an entry may lack its `tags` field.  The pass then
evaluates `challenge.tags.some(...)` (src/script.js:225) and
`challenge.tags.includes(tag)` (src/script.js:231) on `undefined`, which
throws a TypeError.  `ChallengeJS` models such an entry (`tags :
Option (List String)`), and the evaluation of the predicate and of the
pass is modelled in `Option`, with `none` standing for a thrown
TypeError; JavaScript's `||` short-circuit order is kept, and — as in
the source, where all three `const`s are computed before the final
`return` — the tag predicate is evaluated even when the search predicate
is already false. -/

structure ChallengeJS where
  id : ℕ
  title : String
  description : String
  tags : Option (List String)
  difficulty : String
deriving DecidableEq

/-- An entry with its `tags` defaulted to the empty list, for stating
what the pass computes on entries whose `tags` field is present. -/
def withDefaultTags (c : ChallengeJS) : Challenge :=
  { id := c.id, title := c.title, description := c.description,
    tags := c.tags.getD [], difficulty := c.difficulty }

/-- Search predicate on a raw entry, JavaScript short-circuit `||`:
a TypeError (`none`) is thrown only if the tag clause is reached while
`tags` is absent. -/
def matchesSearchJS (c : ChallengeJS) (searchTerm : String) : Option Bool :=
  if searchTerm.isEmpty then some true
  else if jsIncludes (jsToLower c.title) searchTerm then some true
  else if jsIncludes (jsToLower c.description) searchTerm then some true
  else match c.tags with
    | none => none
    | some tags => some (tags.any fun tag => jsIncludes (jsToLower tag) searchTerm)

/-- Tag predicate on a raw entry: `activeTags.length === 0` short-circuits,
otherwise `challenge.tags.includes` is evaluated and throws (`none`) when
`tags` is absent. -/
def matchesTagsJS (c : ChallengeJS) (activeTags : List String) : Option Bool :=
  if activeTags.isEmpty then some true
  else match c.tags with
    | none => none
    | some tags => some (activeTags.any fun tag => tags.contains tag)

/-- The filter callback on a raw entry (src/script.js:220-234): the three
predicates are evaluated in source order, then conjoined. -/
def challengePredJS (c : ChallengeJS) (st : FilterState) : Option Bool := do
  let ms ← matchesSearchJS c st.searchTerm
  let md := (st.activeDifficulty == "all") || (c.difficulty == st.activeDifficulty)
  let mt ← matchesTagsJS c st.activeTags
  pure (ms && md && mt)

/-- What the pure pass computes on a raw entry when nothing throws. -/
def challengePred (c : ChallengeJS) (st : FilterState) : Bool :=
  matchesSearch (withDefaultTags c) st.searchTerm
    && matchesDifficulty (withDefaultTags c) st.activeDifficulty
    && matchesTags (withDefaultTags c) st.activeTags

/-- `Array.prototype.filter` over the raw entries: the callback runs left
to right and a thrown TypeError (`none`) aborts the whole pass. -/
def applyFiltersJS (cs : List ChallengeJS) (st : FilterState) : Option (List ChallengeJS) :=
  match cs with
  | [] => some []
  | c :: rest => do
    let keep ← challengePredJS c st
    let rest2 ← applyFiltersJS rest st
    pure (if keep then c :: rest2 else rest2)

/-! ## Progress tracker

Completion state is `this.completedChallenges : Set` of integer ids,
modelled as a `Finset ℕ`. -/

/-- `toggleChallengeCompletion` (src/script.js:472-486): delete the id if
present, add it otherwise.  Total — it always succeeds. -/
def toggleChallengeCompletion (completed : Finset ℕ) (id : ℕ) : Finset ℕ :=
  if id ∈ completed then completed.erase id else insert id completed

/-- The value found under the persisted key
`neovim-mastery-progress`, as `loadProgress` (src/script.js:622-632)
distinguishes it: the key can be missing (`getItem` returns `null`), hold
a string `JSON.parse` rejects (the throw is caught), parse to `null`
(reading `.completedChallenges` off `null` throws, and is caught), or
parse to an object whose `completedChallenges` and `lastUpdated` fields
may each be absent.  Serialization of the id list through JSON is
modelled as the identity on this structured value. -/
inductive StoredValue where
  | missing
  | garbage
  | parsedNull
  | obj (completedChallenges : Option (List ℕ)) (lastUpdated : Option String)
deriving DecidableEq

/-- `saveProgress` (src/script.js:614-620): store
`{completedChallenges: Array.from(set), lastUpdated: now}` — the set
enumerated as a duplicate-free list, here in ascending order. -/
def saveProgress (completed : Finset ℕ) (now : String) : StoredValue :=
  .obj (some (completed.sort (· ≤ ·))) (some now)

/-- `loadProgress` (src/script.js:622-632), applied to the in-memory set
`current` (the constructor initialises it empty, src/script.js:8): on a
missing key or a caught parse/TypeError the set is left unchanged;
otherwise it becomes `new Set(progress.completedChallenges || [])`.  The
try/catch makes this total: no error escapes. -/
def loadProgress (current : Finset ℕ) : StoredValue → Finset ℕ
  | .missing => current
  | .garbage => current
  | .parsedNull => current
  | .obj none _ => ∅
  | .obj (some ids) _ => ids.toFinset

/-- The export artifact built by `exportProgress` (src/script.js:643-661).
`completionPercentage` is `Math.round((size / total) * 100)` with no
guard on `total`: dividing by zero yields `NaN` (or `Infinity`), and
`Math.round` of it is again non-finite — modelled as `none`. -/
structure ExportDocument where
  completedChallenges : List ℕ
  totalChallenges : ℕ
  completionPercentage : Option ℤ
  exportDate : String
  platform : String
deriving DecidableEq

/-- `exportProgress` (src/script.js:643-661). -/
def exportProgress (completed : Finset ℕ) (challenges : List Challenge) (now : String) :
    ExportDocument :=
  { completedChallenges := completed.sort (· ≤ ·)
    totalChallenges := challenges.length
    completionPercentage :=
      if challenges.length = 0 then none
      else some (round ((completed.card : ℚ) / (challenges.length : ℚ) * 100))
    exportDate := now
    platform := "Neovim Mastery" }

/-- The progress-bar percentage computed by `updateStats`
(src/script.js:325-333): `total > 0 ? (completed / total) * 100 : 0` —
this one is guarded against a zero total. -/
def updateStatsPercentage (completed total : ℕ) : ℚ :=
  if 0 < total then (completed : ℚ) / (total : ℚ) * 100 else 0

/-! ## Session evaluator -/

/-- A practice exercise as consumed by `evaluateExercise`: the dispatch
string and the check-specific fields (`target_line`/`target_column` for
`cursor_position`, `expected_result` for `text_content`); the remaining
catalog fields play no part in evaluation. -/
structure PracticeExercise where
  solution_check : String
  target_line : ℤ
  target_column : ℤ
  expected_result : String
deriving DecidableEq

/-- An editor cursor as CodeMirror reports it: `line` and `ch`
(the spec calls `ch` the column). -/
structure Cursor where
  line : ℤ
  ch : ℤ
deriving DecidableEq

/-- Result of an evaluation (src/script.js:889). -/
structure EvalResult where
  success : Bool
  feedback : String
  encouragement : String
deriving DecidableEq

/-- The seven encouragement strings (src/script.js:877-885). -/
def encouragements : List String :=
  ["🎉 Outstanding work!",
   "⚡ You are becoming a Vim master!",
   "🚀 Excellent progress!",
   "💪 Strong Vim skills!",
   "🎯 Perfect execution!",
   "🔥 You are on fire!",
   "⭐ Stellar performance!"]

/-- The `switch` of `evaluateExercise` (src/script.js:838-874): success
verdict and feedback message, a pure function of the exercise, the final
text and the cursor. -/
def evaluateCheck (ex : PracticeExercise) (userContent : String) (cursor : Cursor) :
    Bool × String :=
  if ex.solution_check = "cursor_position" then
    let targetLine := ex.target_line - 1
    let targetCol := ex.target_column
    let success := (cursor.line == targetLine) && decide ((cursor.ch - targetCol).natAbs ≤ 2)
    (success,
      if success then
        "Perfect! You navigated to line " ++ toString (cursor.line + 1) ++ ", column "
          ++ toString (cursor.ch + 1) ++ "!"
      else
        "Try to reach line " ++ toString ex.target_line ++ ", column "
          ++ toString ex.target_column ++ ". You are at " ++ toString (cursor.line + 1)
          ++ ":" ++ toString (cursor.ch + 1))
  else if ex.solution_check = "text_content" then
    let success := jsTrim userContent == jsTrim ex.expected_result
    (success,
      if success then "Excellent! Your text matches the expected result!"
      else "The text does not quite match. Check your edits and try again.")
  else if ex.solution_check = "word_navigation" then
    (true, "Great job practicing word navigation! Keep using w, b, and e to master word movements.")
  else if ex.solution_check = "visual_selection" then
    (true, "Well done! Visual mode is powerful for selecting and manipulating text.")
  else if ex.solution_check = "text_objects" then
    (true, "Excellent! Text objects make vim editing incredibly efficient.")
  else
    (true, "Exercise completed! Keep practicing to master these skills.")

/-- `evaluateExercise` (src/script.js:832-890).  The random draw
`Math.floor(Math.random() * encouragements.length)` is an input here:
`rand : Fin 7` ranges over exactly the indices the draw can produce, and
only the `encouragement` field depends on it. -/
def evaluateExercise (ex : PracticeExercise) (userContent : String) (cursor : Cursor)
    (rand : Fin 7) : EvalResult :=
  let r := evaluateCheck ex userContent cursor
  { success := r.1
    feedback := r.2
    encouragement := if r.1 then encouragements.getD rand.val "" else "" }

/-- `this.exerciseStats` (src/script.js:20-24): `completed`, `total`
(never updated), `success`. -/
structure ExerciseStats where
  completed : ℕ
  total : ℕ
  success : ℕ
deriving DecidableEq

/-- The stats update of `submitExercise` (src/script.js:814-830):
evaluate, then increment `success` when the result succeeded, and always
increment `completed`. -/
def submitExercise (stats : ExerciseStats) (ex : PracticeExercise) (userContent : String)
    (cursor : Cursor) (rand : Fin 7) : ExerciseStats :=
  let result := evaluateExercise ex userContent cursor rand
  let stats1 :=
    if result.success then { stats with success := stats.success + 1 } else stats
  { stats1 with completed := stats1.completed + 1 }

/-- One submission's inputs: exercise, final text, final cursor, and the
random draw for the encouragement. -/
def submitStep (stats : ExerciseStats) (x : PracticeExercise × String × Cursor × Fin 7) :
    ExerciseStats :=
  submitExercise stats x.1 x.2.1 x.2.2.1 x.2.2.2

/-- The success rate displayed by `updateExerciseStats`
(src/script.js:946-959): `completed > 0 ?
Math.round((success / completed) * 100) : 0`. -/
def successRate (stats : ExerciseStats) : ℤ :=
  if 0 < stats.completed then
    round ((stats.success : ℚ) / (stats.completed : ℚ) * 100)
  else 0

/-! ## Concrete sample data used by witnesses and scenarios -/

/-- A small concrete catalog. -/
def sampleCatalog : List Challenge :=
  [{ id := 1, title := "Basic Motions", description := "Learn hjkl movement",
     tags := ["motion", "basics"], difficulty := "Beginner" },
   { id := 2, title := "Word Jumps", description := "Move by words",
     tags := ["motion"], difficulty := "Intermediate" },
   { id := 3, title := "Macros", description := "Record and replay",
     tags := ["automation"], difficulty := "Expert" }]

/-- A concrete filter state with a normalised (lower-case, trimmed)
search term, as the pass receives it. -/
def sampleState : FilterState :=
  { searchTerm := "motion", activeDifficulty := "all", activeTags := [] }

/-- A raw entry whose `tags` field is absent. -/
def entryNoTags : ChallengeJS :=
  { id := 7, title := "Registers", description := "Named registers", tags := none,
    difficulty := "Advanced" }

/-- A raw entry whose `tags` field is present. -/
def entryWithTags : ChallengeJS :=
  { id := 8, title := "Visual Block", description := "Column edits",
    tags := some ["visual"], difficulty := "Advanced" }

/-- A filter state with one selected tag. -/
def tagFacetState : FilterState :=
  { searchTerm := "", activeDifficulty := "all", activeTags := ["motion"] }

/-- The cursor-position scenario exercise of spec property 9:
`target_line = 6`, `target_column = 10`. -/
def cursorScenarioEx : PracticeExercise :=
  { solution_check := "cursor_position", target_line := 6, target_column := 10,
    expected_result := "" }

/-- The text-content scenario exercise of spec property 10:
`expected_result = "  hello world  "`. -/
def textScenarioEx : PracticeExercise :=
  { solution_check := "text_content", target_line := 0, target_column := 0,
    expected_result := "  hello world  " }

/-- A word-navigation exercise (always-succeed check kind). -/
def wordNavEx : PracticeExercise :=
  { solution_check := "word_navigation", target_line := 0, target_column := 0,
    expected_result := "" }

end VimMaster

namespace VimMaster

theorem beq_comm_str (a b : String) : (a == b) = (b == a) := by
  by_cases h : a = b
  · subst h; rfl
  · rw [beq_eq_false_iff_ne.mpr h, beq_eq_false_iff_ne.mpr (Ne.symm h)]

/-- C1: for every catalog and every filter state whose search term is
normalised (lower-case, as both callers of the pass guarantee),
`applyFilters` returns exactly the order-preserving subsequence of the
catalog described by spec section 4.1: search term empty or a
case-insensitive substring of title, description or a tag; difficulty
facet "all" or equal to the entry's difficulty; tag facet empty or
sharing a tag with the entry. -/
theorem applyFilters_is_computeVisible (catalog : List Challenge) (st : FilterState)
    (h : jsToLower st.searchTerm = st.searchTerm) :
    applyFilters catalog st = computeVisibleSpec catalog st ∧
      (applyFilters catalog st).Sublist catalog := by
  refine ⟨?_, List.filter_sublist _⟩
  unfold applyFilters computeVisibleSpec
  apply List.filter_congr
  intro c _
  unfold matchesSearch matchesDifficulty matchesTags
  unfold specSearchOk specDifficultyOk specTagsOk ciSubstring
  rw [h, beq_comm_str c.difficulty st.activeDifficulty]

/-- Witness for C1 at a concrete catalog and state. -/
theorem applyFilters_is_computeVisible_witness :
    applyFilters sampleCatalog sampleState = computeVisibleSpec sampleCatalog sampleState :=
  (applyFilters_is_computeVisible sampleCatalog sampleState rfl).1

/-- C2: for a non-empty catalog the exported `completionPercentage` is
`round(100 * |completed| / total)`, but for an empty catalog
`exportProgress` divides by zero and exports `NaN` (`none`), while the
guarded `updateStats` path in the same file yields 0 — the zero-total
case of the claim fails in `exportProgress`. -/
theorem exportProgress_completion_percentage :
    (∀ (completed : Finset ℕ) (chs : List Challenge) (now : String), chs ≠ [] →
      (exportProgress completed chs now).completionPercentage
        = some (round (100 * (completed.card : ℚ) / (chs.length : ℚ)))) ∧
    (exportProgress ∅ [] "2026-10-11").completionPercentage = none ∧
    updateStatsPercentage 0 0 = 0 := by
  refine ⟨?_, rfl, rfl⟩
  intro completed chs now h
  unfold exportProgress
  simp only [List.length_eq_zero]
  rw [if_neg h]
  have harith : (completed.card : ℚ) / (chs.length : ℚ) * 100
      = 100 * (completed.card : ℚ) / (chs.length : ℚ) := by ring
  rw [harith]

/-- Witness for the non-zero-total clause of
`exportProgress_completion_percentage` at a concrete catalog. -/
theorem exportProgress_completion_percentage_witness :
    (exportProgress ∅ sampleCatalog "2026-10-11").completionPercentage
      = some (round (100 * ((∅ : Finset ℕ).card : ℚ) / (sampleCatalog.length : ℚ))) :=
  exportProgress_completion_percentage.1 ∅ sampleCatalog "2026-10-11" (by decide)

/-- C3 counterexample: one raw entry with an absent `tags` field and a
filter state with one selected tag make the pass throw a TypeError
(`none`) — missing tags is not treated as an empty set. -/
theorem applyFilters_missing_tags_throws :
    applyFiltersJS [entryNoTags] tagFacetState = none := by decide

/-- Per-entry evaluation never throws when the `tags` field is present,
and computes the pure predicate. -/
theorem challengePredJS_eq_of_tags (c : ChallengeJS) (st : FilterState) (tags : List String)
    (h : c.tags = some tags) : challengePredJS c st = some (challengePred c st) := by
  unfold challengePredJS challengePred matchesSearchJS matchesTagsJS
  unfold matchesSearch matchesDifficulty matchesTags withDefaultTags
  rw [h]
  simp only [Option.getD]
  rcases Bool.eq_false_or_eq_true st.activeTags.isEmpty with hemp | hemp <;>
    simp only [hemp] <;> split_ifs <;> simp_all

/-- C3 amended: the pass does not crash on catalogs all of whose entries
carry a `tags` field, and filters them by the three predicates; an entry
with an absent `tags` field instead makes the pass throw (see
`applyFilters_missing_tags_throws`). -/
theorem applyFiltersJS_tags_present (cs : List ChallengeJS) (st : FilterState)
    (h : ∀ c ∈ cs, (ChallengeJS.tags c).isSome) :
    applyFiltersJS cs st = some (cs.filter fun c => challengePred c st) := by
  induction cs with
  | nil => rfl
  | cons c rest ih =>
    obtain ⟨tags, htags⟩ := Option.isSome_iff_exists.mp (h c (List.mem_cons_self c rest))
    have hrest := ih fun x hx => h x (List.mem_cons_of_mem c hx)
    simp only [applyFiltersJS, challengePredJS_eq_of_tags c st tags htags, hrest,
      Option.bind_eq_bind, Option.some_bind, List.filter_cons]
    by_cases hc : challengePred c st <;> simp [hc]

/-- Witness for the amended C3 at a concrete entry with tags present. -/
theorem applyFiltersJS_tags_present_witness :
    applyFiltersJS [entryWithTags] tagFacetState
      = some ([entryWithTags].filter fun c => challengePred c tagFacetState) :=
  applyFiltersJS_tags_present [entryWithTags] tagFacetState (by decide)

/-- C4: `toggleChallengeCompletion` flips the membership of `id` in the
completed set (it is a total function, so it always succeeds), and
applying it twice restores the original set. -/
theorem toggleChallengeCompletion_involutive (s : Finset ℕ) (id : ℕ) :
    (id ∈ toggleChallengeCompletion s id ↔ id ∉ s) ∧
      toggleChallengeCompletion (toggleChallengeCompletion s id) id = s := by
  by_cases h : id ∈ s
  · constructor
    · simp [toggleChallengeCompletion, h]
    · simp [toggleChallengeCompletion, h, Finset.insert_erase h]
  · constructor
    · simp [toggleChallengeCompletion, h]
    · simp [toggleChallengeCompletion, h, Finset.erase_insert h]

/-- C5: restoring right after persisting recovers exactly the persisted
set of completed ids, whatever set was in memory before. -/
theorem loadProgress_saveProgress_roundtrip (current s : Finset ℕ) (now : String) :
    loadProgress current (saveProgress s now) = s := by
  simp [loadProgress, saveProgress]

/-- C6: on a missing key, an unparseable value, a value parsing to
`null`, or a parsed object lacking `completedChallenges`, `loadProgress`
of the startup state returns the empty set; being a total function, no
error escapes its boundary. -/
theorem loadProgress_recovers_empty :
    loadProgress ∅ .missing = ∅ ∧ loadProgress ∅ .garbage = ∅ ∧
      loadProgress ∅ .parsedNull = ∅ ∧
      ∀ lastUpdated, loadProgress ∅ (.obj none lastUpdated) = ∅ :=
  ⟨rfl, rfl, rfl, fun _ => rfl⟩

/-- C7: a `cursor_position` exercise succeeds exactly when the final
cursor is on line `target_line - 1` (the 1-based target made 0-based)
with its column within 2 of `target_column`; in the spec scenario
(`target_line = 6`, `target_column = 10`) the cursor `{line: 5, ch: 11}`
succeeds and `{line: 5, ch: 20}` fails. -/
theorem evaluateExercise_cursor_position :
    (∀ (ex : PracticeExercise) (content : String) (cur : Cursor) (r : Fin 7),
      ex.solution_check = "cursor_position" →
        ((evaluateExercise ex content cur r).success = true ↔
          (cur.line = ex.target_line - 1 ∧ (cur.ch - ex.target_column).natAbs ≤ 2))) ∧
    (evaluateExercise cursorScenarioEx "" ⟨5, 11⟩ 0).success = true ∧
    (evaluateExercise cursorScenarioEx "" ⟨5, 20⟩ 0).success = false := by
  refine ⟨?_, by decide, by decide⟩
  intro ex content cur r h
  simp [evaluateExercise, evaluateCheck, h]

/-- Witness for C7 at the spec scenario input. -/
theorem evaluateExercise_cursor_position_witness :
    (evaluateExercise cursorScenarioEx "" ⟨5, 11⟩ 0).success = true ↔
      ((5 : ℤ) = cursorScenarioEx.target_line - 1 ∧
        ((11 : ℤ) - cursorScenarioEx.target_column).natAbs ≤ 2) :=
  evaluateExercise_cursor_position.1 cursorScenarioEx "" ⟨5, 11⟩ 0 rfl

/-- C8: a `text_content` exercise succeeds exactly when the trimmed final
text equals the trimmed `expected_result`; in the spec scenario the
expectation `"  hello world  "` accepts the submission `"hello world"`. -/
theorem evaluateExercise_text_content :
    (∀ (ex : PracticeExercise) (content : String) (cur : Cursor) (r : Fin 7),
      ex.solution_check = "text_content" →
        ((evaluateExercise ex content cur r).success = true ↔
          jsTrim content = jsTrim ex.expected_result)) ∧
    (evaluateExercise textScenarioEx "hello world" ⟨0, 0⟩ 0).success = true := by
  refine ⟨?_, by decide⟩
  intro ex content cur r h
  simp [evaluateExercise, evaluateCheck, h]

/-- Witness for C8 at the spec scenario input. -/
theorem evaluateExercise_text_content_witness :
    (evaluateExercise textScenarioEx "hello world" ⟨0, 0⟩ 0).success = true ↔
      jsTrim "hello world" = jsTrim textScenarioEx.expected_result :=
  evaluateExercise_text_content.1 textScenarioEx "hello world" ⟨0, 0⟩ 0 rfl

theorem submitStep_le (stats : ExerciseStats) (x : PracticeExercise × String × Cursor × Fin 7)
    (h : stats.success ≤ stats.completed) :
    (submitStep stats x).success ≤ (submitStep stats x).completed := by
  unfold submitStep submitExercise
  by_cases hr : (evaluateExercise x.1 x.2.1 x.2.2.1 x.2.2.2).success <;>
    simp [hr] <;> omega

theorem foldl_submitStep_le (seq : List (PracticeExercise × String × Cursor × Fin 7))
    (stats : ExerciseStats) (h : stats.success ≤ stats.completed) :
    (seq.foldl submitStep stats).success ≤ (seq.foldl submitStep stats).completed := by
  induction seq generalizing stats with
  | nil => simpa
  | cons x rest ih => exact ih _ (submitStep_le stats x h)

/-- C9: every submission increments `completed` by one and increments
`success` by one exactly when the evaluation succeeded; from zeroed
stats, `success ≤ completed` holds after any submission sequence; and
the displayed success rate is `round(100 * success / completed)`, with 0
for zero submissions. -/
theorem submitExercise_stats :
    (∀ (stats : ExerciseStats) (ex : PracticeExercise) (content : String) (cur : Cursor)
        (r : Fin 7),
      (submitExercise stats ex content cur r).completed = stats.completed + 1) ∧
    (∀ (stats : ExerciseStats) (ex : PracticeExercise) (content : String) (cur : Cursor)
        (r : Fin 7),
      (submitExercise stats ex content cur r).success
        = stats.success + if (evaluateExercise ex content cur r).success then 1 else 0) ∧
    (∀ seq : List (PracticeExercise × String × Cursor × Fin 7),
      (seq.foldl submitStep ⟨0, 0, 0⟩).success ≤ (seq.foldl submitStep ⟨0, 0, 0⟩).completed) ∧
    (∀ stats : ExerciseStats, stats.completed = 0 → successRate stats = 0) ∧
    (∀ stats : ExerciseStats, 0 < stats.completed →
      successRate stats = round (100 * (stats.success : ℚ) / (stats.completed : ℚ))) := by
  refine ⟨?_, ?_, ?_, ?_, ?_⟩
  · intro stats ex content cur r
    unfold submitExercise
    by_cases hr : (evaluateExercise ex content cur r).success <;> simp [hr]
  · intro stats ex content cur r
    unfold submitExercise
    by_cases hr : (evaluateExercise ex content cur r).success <;> simp [hr]
  · intro seq
    exact foldl_submitStep_le seq ⟨0, 0, 0⟩ (Nat.le_refl 0)
  · intro stats h
    simp [successRate, h]
  · intro stats h
    unfold successRate
    rw [if_pos h]
    have harith : (stats.success : ℚ) / (stats.completed : ℚ) * 100
        = 100 * (stats.success : ℚ) / (stats.completed : ℚ) := by ring
    rw [harith]

/-- Witness for C9: the zero-submission success rate is 0. -/
theorem submitExercise_stats_witness : successRate ⟨0, 0, 0⟩ = 0 :=
  submitExercise_stats.2.2.2.1 ⟨0, 0, 0⟩ rfl

/-- C10: the verdict and the feedback message of `evaluateExercise` do
not depend on the random draw — two runs on identical inputs agree on
both — while the encouragement does depend on it (two draws shown on a
concrete always-succeed exercise). -/
theorem evaluateExercise_deterministic :
    (∀ (ex : PracticeExercise) (content : String) (cur : Cursor) (r₁ r₂ : Fin 7),
      (evaluateExercise ex content cur r₁).success
          = (evaluateExercise ex content cur r₂).success ∧
        (evaluateExercise ex content cur r₁).feedback
          = (evaluateExercise ex content cur r₂).feedback) ∧
    (evaluateExercise wordNavEx "" ⟨0, 0⟩ 0).encouragement ≠
      (evaluateExercise wordNavEx "" ⟨0, 0⟩ 1).encouragement := by
  exact ⟨fun ex content cur r₁ r₂ => ⟨rfl, rfl⟩, by decide⟩

end VimMaster
